import Mathlib

/-!
OscilloscopeWidget: view transform, tick selection and grid cache.

A shallow embedding of `SimpleCurveWidget.h` and `SimpleCurveWidget.cpp`.

Modelling conventions
* `float` and `qreal` values are exact rationals (`ℚ`), so rounding is left out; `int`
  values are integers (`ℤ`).
* A conversion from a floating value to `int` is truncation toward zero into the 32-bit
  range; a value outside that range converts to `INT_MIN` (`toInt`).
* `width()` and `height()` of the widget are the fields `width`, `height` of the state.
* `updateGL()` of `QGLWidget` repaints at once: it runs `paintGL` before it returns.
* The OpenGL texture handle, the waveform samples and the raster of the grid image are
  left out; the grid image is represented by the quantities that
  `generateGridTextureImage` computes from the view before it draws.
-/

namespace Oscilloscope

/-! ## Basic values -/

/-- The least value of a 32-bit `int`. -/
def INT_MIN : ℤ := -2147483648

/-- The greatest value of a 32-bit `int`. -/
def INT_MAX : ℤ := 2147483647

/-- Conversion of a floating value to `int` (`static_cast<int>`, `int v = ...`):
truncation toward zero. A value whose truncation does not fit a 32-bit `int` has no
defined result in C++; the x86-64 conversion yields `INT_MIN`, and so does the model. -/
def toInt (q : ℚ) : ℤ :=
  let t : ℤ := if 0 ≤ q then ⌊q⌋ else ⌈q⌉
  if INT_MIN ≤ t ∧ t ≤ INT_MAX then t else INT_MIN

/-- The Qt point with integer coordinates. -/
structure QPoint where
  x : ℤ
  y : ℤ
  deriving DecidableEq

/-- The Qt point with real coordinates. -/
structure QPointF where
  x : ℚ
  y : ℚ
  deriving DecidableEq

def TEXT_SIZE : ℤ := 12
def BASE_X_RANGE : ℚ := 10
def BASE_Y_RANGE : ℚ := 8
def MIN_TICK_COUNT : ℤ := 5
def MAX_TICK_COUNT : ℤ := 10

/-! ## Tick interval selection -/

/-- The array `candidates` of `calculateOptimalTickInterval`. -/
def candidates : List ℚ := [1/10, 1/5, 1/2, 1, 2, 5, 10, 20, 50]

/-- The `for (float c : candidates)` loop of `calculateOptimalTickInterval`: the first
candidate that is `>= idealInterval` ends the loop; otherwise `bestInterval` is left at the
last candidate visited. -/
def selectLoop (idealInterval : ℚ) : List ℚ → ℚ → ℚ
  | [], bestInterval => bestInterval
  | c :: cs, _ => if c ≥ idealInterval then c else selectLoop idealInterval cs c

/-- The value of `bestInterval` after the loop, before the tick-count correction. -/
def selectedInterval (pixelPerUnit : ℚ) : ℚ :=
  let targetTickPixel : ℚ := 80
  let idealInterval := targetTickPixel / pixelPerUnit
  selectLoop idealInterval candidates (candidates.headD 0)

/-- The function `OscilloscopeWidget::calculateOptimalTickInterval`. -/
def calculateOptimalTickInterval (range pixelPerUnit : ℚ) : ℚ :=
  let bestInterval := selectedInterval pixelPerUnit
  let tickCount := toInt ((2 * range) / bestInterval)
  if tickCount < MIN_TICK_COUNT then bestInterval / 2
  else if tickCount > MAX_TICK_COUNT then bestInterval * 2
  else bestInterval

/-! ## Widget state -/

/-- The quantities `generateGridTextureImage` computes and draws from; stands for the image. -/
structure GridImage where
  width : ℤ
  height : ℤ
  xPixelPerUnit : ℚ
  yPixelPerUnit : ℚ
  centerX : ℤ
  centerY : ℤ
  xTickInterval : ℚ
  yTickInterval : ℚ
  xStart : ℚ
  xEnd : ℚ
  yStart : ℚ
  yEnd : ℚ
  firstXTick : ℚ
  firstYTick : ℚ
  xAxisY : ℤ
  yAxisX : ℤ
  originLabel : Bool
  mouseLabel : Option QPointF

/-- The members of `OscilloscopeWidget` that the view transform and the grid cache use,
with the widget geometry (`width()`, `height()`). -/
structure Widget where
  width : ℤ
  height : ℤ
  m_gridTextureImage : Option GridImage
  m_isTextureDirty : Bool
  m_viewRangeX : ℚ
  m_viewRangeY : ℚ
  m_viewOffset : QPointF
  m_lastMousePos : QPoint
  m_zoom_x : ℚ
  m_zoom_y : ℚ
  m_currentMouseGLPos : QPointF
  m_isMousePosVisible : Bool

/-- The widget after construction (default member values of the class) on a canvas of the
given size. -/
def initialWidget (width height : ℤ) : Widget :=
  { width := width
    height := height
    m_gridTextureImage := none
    m_isTextureDirty := true
    m_viewRangeX := BASE_X_RANGE
    m_viewRangeY := BASE_Y_RANGE
    m_viewOffset := ⟨0, 0⟩
    m_lastMousePos := ⟨0, 0⟩
    m_zoom_x := 1
    m_zoom_y := 1
    m_currentMouseGLPos := ⟨0, 0⟩
    m_isMousePosVisible := false }

/-- The function `OscilloscopeWidget::markTextureDirty`. -/
def markTextureDirty (s : Widget) : Widget := { s with m_isTextureDirty := true }

/-! ## Data space and pixel space -/

/-- The local `xPixelPerUnit` of `generateGridTextureImage`. -/
def xPixelPerUnit (width : ℤ) (s : Widget) : ℚ := (width : ℚ) / (2 * s.m_viewRangeX)

/-- The local `yPixelPerUnit` of `generateGridTextureImage`. -/
def yPixelPerUnit (height : ℤ) (s : Widget) : ℚ := (height : ℚ) / (2 * s.m_viewRangeY)

/-- The local `int centerX = width / 2` (integer division). -/
def centerX (width : ℤ) : ℤ := Int.tdiv width 2

/-- The local `int centerY = height / 2` (integer division). -/
def centerY (height : ℤ) : ℤ := Int.tdiv height 2

/-- The right-hand side of `int pixelX = centerX + (x - m_viewOffset.x()) * xPixelPerUnit`
with the integer `centerX`, before the conversion of the sum to `int`. -/
def gridPixelXExact (width : ℤ) (s : Widget) (x : ℚ) : ℚ :=
  (centerX width : ℚ) + (x - s.m_viewOffset.x) * xPixelPerUnit width s

/-- The right-hand side of `int pixelY = centerY - (y + m_viewOffset.y()) * yPixelPerUnit`
with the integer `centerY`, before the conversion of the difference to `int`. -/
def gridPixelYExact (height : ℤ) (s : Widget) (y : ℚ) : ℚ :=
  (centerY height : ℚ) - (y + s.m_viewOffset.y) * yPixelPerUnit height s

/-- The grid mapping of `generateGridTextureImage` for X in exact arithmetic:
`centerX + (x - m_viewOffset.x()) * xPixelPerUnit` with the centre `width / 2` and the
pixel both taken before their truncation to `int`. -/
def dataToPixelX (width : ℤ) (s : Widget) (x : ℚ) : ℚ :=
  (width : ℚ) / 2 + (x - s.m_viewOffset.x) * xPixelPerUnit width s

/-- The grid mapping of `generateGridTextureImage` for Y in exact arithmetic:
`centerY - (y + m_viewOffset.y()) * yPixelPerUnit` with the centre `height / 2` and the
pixel both taken before their truncation to `int`. -/
def dataToPixelY (height : ℤ) (s : Widget) (y : ℚ) : ℚ :=
  (height : ℚ) / 2 - (y + s.m_viewOffset.y) * yPixelPerUnit height s

/-- The pixel column of the vertical grid line at data coordinate `x`. -/
def gridPixelX (width : ℤ) (s : Widget) (x : ℚ) : ℤ := toInt (gridPixelXExact width s x)

/-- The pixel row of the horizontal grid line at data coordinate `y`. -/
def gridPixelY (height : ℤ) (s : Widget) (y : ℚ) : ℤ := toInt (gridPixelYExact height s y)

/-- The expression `(px / (float)width()) * 2 * m_viewRangeX - m_viewRangeX + m_viewOffset.x()`
of `mouseMoveEvent` and `wheelEvent`. -/
def mouseGLX (s : Widget) (px : ℚ) : ℚ :=
  (px / (s.width : ℚ)) * 2 * s.m_viewRangeX - s.m_viewRangeX + s.m_viewOffset.x

/-- The expression `m_viewRangeY - (py / (float)height()) * 2 * m_viewRangeY - m_viewOffset.y()`
of `mouseMoveEvent` and `wheelEvent`. -/
def mouseGLY (s : Widget) (py : ℚ) : ℚ :=
  s.m_viewRangeY - (py / (s.height : ℚ)) * 2 * s.m_viewRangeY - s.m_viewOffset.y

/-- The function `OscilloscopeWidget::generateGridTextureImage`, up to the raster. -/
def generateGridTextureImage (width height : ℤ) (s : Widget) : GridImage :=
  let xPPU := xPixelPerUnit width s
  let yPPU := yPixelPerUnit height s
  let xTickInterval := calculateOptimalTickInterval s.m_viewRangeX xPPU
  let yTickInterval := calculateOptimalTickInterval s.m_viewRangeY yPPU
  let xStart := -s.m_viewRangeX + s.m_viewOffset.x
  let xEnd := s.m_viewRangeX + s.m_viewOffset.x
  let yStart := -s.m_viewRangeY - s.m_viewOffset.y
  let yEnd := s.m_viewRangeY - s.m_viewOffset.y
  { width := width
    height := height
    xPixelPerUnit := xPPU
    yPixelPerUnit := yPPU
    centerX := centerX width
    centerY := centerY height
    xTickInterval := xTickInterval
    yTickInterval := yTickInterval
    xStart := xStart
    xEnd := xEnd
    yStart := yStart
    yEnd := yEnd
    firstXTick := (⌊xStart / xTickInterval⌋ : ℚ) * xTickInterval
    firstYTick := (⌊yStart / yTickInterval⌋ : ℚ) * yTickInterval
    xAxisY := toInt ((centerY height : ℚ) - s.m_viewOffset.y * yPPU)
    yAxisX := toInt ((centerX width : ℚ) - s.m_viewOffset.x * xPPU)
    originLabel := decide (xStart ≤ 0 ∧ xEnd ≥ 0 ∧ yStart ≤ 0 ∧ yEnd ≥ 0)
    mouseLabel := if s.m_isMousePosVisible then some s.m_currentMouseGLPos else none }

/-! ## Event handlers -/

/-- The function `OscilloscopeWidget::resizeGL`. -/
def resizeGL (_width _height : ℤ) (s : Widget) : Widget := markTextureDirty s

/-- The function `OscilloscopeWidget::paintGL`: the grid cache part. -/
def paintGL (s : Widget) : Widget :=
  if s.m_isTextureDirty then
    { s with
      m_gridTextureImage := some (generateGridTextureImage s.width s.height s)
      m_isTextureDirty := false }
  else s

/-- The call `updateGL()` of `QGLWidget` on the shown widget: it draws at once, that is, it
runs `paintGL` before it returns. -/
def updateGL (s : Widget) : Widget := paintGL s

/-- The slot `OscilloscopeWidget::onResetView`. -/
def onResetView (s : Widget) : Widget :=
  updateGL
    (markTextureDirty
      { s with
        m_viewOffset := ⟨0, 0⟩
        m_viewRangeX := BASE_X_RANGE
        m_viewRangeY := BASE_Y_RANGE
        m_zoom_x := 1
        m_zoom_y := 1 })

/-- The slot `OscilloscopeWidget::onMousePosition`. -/
def onMousePosition (isShown : Bool) (s : Widget) : Widget :=
  let s1 := { s with m_isMousePosVisible := isShown }
  if !isShown then markTextureDirty s1 else s1

/-- The handler `OscilloscopeWidget::mousePressEvent`. -/
def mousePressEvent (e : QPoint) (s : Widget) : Widget := { s with m_lastMousePos := e }

/-- The handler `OscilloscopeWidget::mouseMoveEvent`; `leftButton` is `e->buttons() & Qt::LeftButton`
and `e` the event position. -/
def mouseMoveEvent (leftButton : Bool) (e : QPoint) (s : Widget) : Widget :=
  let s1 :=
    if leftButton then
      let dx : ℤ := e.x - s.m_lastMousePos.x
      let dy : ℤ := e.y - s.m_lastMousePos.y
      let xOffset : ℚ := ((-dx : ℤ) : ℚ) * (2 * s.m_viewRangeX) / (s.width : ℚ)
      let yOffset : ℚ := ((-dy : ℤ) : ℚ) * (2 * s.m_viewRangeY) / (s.height : ℚ)
      updateGL
        (markTextureDirty
          { s with
            m_viewOffset := ⟨s.m_viewOffset.x + xOffset, s.m_viewOffset.y + yOffset⟩
            m_lastMousePos := e })
    else s
  if s1.m_isMousePosVisible then
    let x := mouseGLX s1 (e.x : ℚ)
    let y := mouseGLY s1 (e.y : ℚ)
    updateGL (markTextureDirty { s1 with m_currentMouseGLPos := ⟨x, y⟩ })
  else s1

/-- The scale factor of `wheelEvent` from the wheel direction, after the clamp. -/
def wheelScaleFactor (angleDeltaY : ℤ) : ℚ :=
  let scaleFactor : ℚ := if angleDeltaY > 0 then 9/10 else 11/10
  if scaleFactor < 1/10 then 1/10 else (if scaleFactor > 50 then 50 else scaleFactor)

/-- The handler `OscilloscopeWidget::wheelEvent`; `isCtrlPressed` is the Ctrl modifier, `angleDeltaY`
is `e->angleDelta().y()` and `mousePos` the event position. -/
def wheelEvent (isCtrlPressed : Bool) (angleDeltaY : ℤ) (mousePos : QPoint) (s : Widget) :
    Widget :=
  let scaleFactor := wheelScaleFactor angleDeltaY
  let mouseX := mouseGLX s (mousePos.x : ℚ)
  let mouseY := mouseGLY s (mousePos.y : ℚ)
  let s1 :=
    if !isCtrlPressed then
      let oldViewRangeX := s.m_viewRangeX
      let newViewRangeX := s.m_viewRangeX * scaleFactor
      { s with
        m_zoom_x := s.m_zoom_x * scaleFactor
        m_viewRangeX := newViewRangeX
        m_viewOffset :=
          ⟨mouseX - (mouseX - s.m_viewOffset.x) * (newViewRangeX / oldViewRangeX),
            s.m_viewOffset.y⟩ }
    else
      let oldViewRangeY := s.m_viewRangeY
      let newViewRangeY := s.m_viewRangeY * scaleFactor
      { s with
        m_zoom_y := s.m_zoom_y * scaleFactor
        m_viewRangeY := newViewRangeY
        m_viewOffset :=
          ⟨s.m_viewOffset.x,
            mouseY - (mouseY - s.m_viewOffset.y) * (newViewRangeY / oldViewRangeY)⟩ }
  updateGL (markTextureDirty s1)

/-! ## Event sequences -/

/-- What the host delivers to the widget; `paint` is a repaint of the host (a paint event or
the `updateGL()` of the timer and of the waveform setters). -/
inductive Event where
  | resize (width height : ℤ)
  | paint
  | resetView
  | mousePosition (isShown : Bool)
  | mousePress (e : QPoint)
  | mouseMove (leftButton : Bool) (e : QPoint)
  | wheel (isCtrlPressed : Bool) (angleDeltaY : ℤ) (mousePos : QPoint)

/-- One event: the host updates the geometry before it calls `resizeGL`. -/
def step (s : Widget) : Event → Widget
  | .resize w h => resizeGL w h { s with width := w, height := h }
  | .paint => paintGL s
  | .resetView => onResetView s
  | .mousePosition isShown => onMousePosition isShown s
  | .mousePress e => mousePressEvent e s
  | .mouseMove leftButton e => mouseMoveEvent leftButton e s
  | .wheel isCtrlPressed angleDeltaY mousePos => wheelEvent isCtrlPressed angleDeltaY mousePos s

/-- A finite sequence of events, delivered in order. -/
def run (s : Widget) (events : List Event) : Widget := events.foldl step s

/-- A pan by the pixel delta `(a, b)`: a left-button mouse move from the last mouse position
to the position `(a, b)` further. -/
def pan (a b : ℤ) (s : Widget) : Widget :=
  mouseMoveEvent true ⟨s.m_lastMousePos.x + a, s.m_lastMousePos.y + b⟩ s

/-- The half-ranges of a view state are positive. -/
def HalfRangesPositive (s : Widget) : Prop := 0 < s.m_viewRangeX ∧ 0 < s.m_viewRangeY

/-- The cached grid image is the one `generateGridTextureImage` makes from the current
state: it has been regenerated and is up to date. -/
def GridImageCurrent (s : Widget) : Prop :=
  s.m_gridTextureImage = some (generateGridTextureImage s.width s.height s)

/-! ## Tick counts -/

/-- The value of `tickCount` in `calculateOptimalTickInterval`, before the correction. -/
def tickCountBefore (range pixelPerUnit : ℚ) : ℤ :=
  toInt ((2 * range) / selectedInterval pixelPerUnit)

/-- The tick count after the correction: `floor(2*halfRange / interval)` for the interval
that `calculateOptimalTickInterval` returns. -/
def tickCountAfter (range pixelPerUnit : ℚ) : ℤ :=
  ⌊(2 * range) / calculateOptimalTickInterval range pixelPerUnit⌋

/-! ## The tick interval as the specification words it -/

/-- The candidate ladder of the specification. -/
def specLadder : List ℚ := [1/10, 1/5, 1/2, 1, 2, 5, 10, 20, 50]

/-- The specified selection: the smallest ladder value whose on-screen spacing
`c * pixelsPerUnit` is at least 80, or 50 when no ladder value reaches 80. -/
def specCandidate (pixelsPerUnit : ℚ) : ℚ :=
  match specLadder.filter (fun c => decide (c * pixelsPerUnit ≥ 80)) with
  | [] => 50
  | c :: cs => cs.foldl min c

/-- The specified tick interval: one correction step on `n = floor(2*halfRange / c)`. -/
def specTickInterval (halfRange pixelsPerUnit : ℚ) : ℚ :=
  let c := specCandidate pixelsPerUnit
  let n := ⌊2 * halfRange / c⌋
  if n < 5 then c / 2 else if n > 10 then 2 * c else c

/-! ## Helper lemmas: conversion to int, wheel factor, integer centre -/

theorem toInt_of_range (q : ℚ) (h0 : 0 ≤ q) (h1 : q < 2147483648) : toInt q = ⌊q⌋ := by
  have hlo : (0 : ℤ) ≤ ⌊q⌋ := Int.floor_nonneg.mpr h0
  have hhi : ⌊q⌋ < 2147483648 := Int.floor_lt.mpr (by exact_mod_cast h1)
  unfold toInt INT_MIN INT_MAX
  simp only [h0, if_true]
  rw [if_pos ⟨by omega, by omega⟩]

theorem toInt_eq_of_eq (p q : ℚ) (h : p = q) : toInt p = toInt q := by rw [h]

theorem wheelScaleFactor_cases (angleDeltaY : ℤ) :
    wheelScaleFactor angleDeltaY = 9/10 ∨ wheelScaleFactor angleDeltaY = 11/10 := by
  unfold wheelScaleFactor
  by_cases h : angleDeltaY > 0
  · left; simp only [h, if_true]; norm_num
  · right; simp only [h, if_false]; norm_num

theorem wheelScaleFactor_pos (angleDeltaY : ℤ) : 0 < wheelScaleFactor angleDeltaY := by
  rcases wheelScaleFactor_cases angleDeltaY with h | h <;> rw [h] <;> norm_num

/-- The integer centre of a positive dimension `n` is `(n - n mod 2) / 2`. -/
theorem center_cast (n : ℤ) (hn : 0 < n) :
    ((Int.tdiv n 2 : ℤ) : ℚ) = ((n : ℚ) - ((n % 2 : ℤ) : ℚ)) / 2 := by
  have h1 : Int.tdiv n 2 = n / 2 := Int.tdiv_eq_ediv (le_of_lt hn) (by norm_num)
  have h2 : 2 * (n / 2) + n % 2 = n := Int.ediv_add_emod n 2
  have h3 : (2 : ℚ) * ((n / 2 : ℤ) : ℚ) + ((n % 2 : ℤ) : ℚ) = (n : ℚ) := by exact_mod_cast h2
  rw [h1]
  linarith

/-- The integer-centred grid column lies `(width mod 2) / 2` left of the exact one; the two
agree on a canvas of even width. -/
theorem gridPixelXExact_eq_dataToPixelX (width : ℤ) (hw : 0 < width) (s : Widget) (x : ℚ) :
    gridPixelXExact width s x = dataToPixelX width s x - ((width % 2 : ℤ) : ℚ) / 2 := by
  unfold gridPixelXExact dataToPixelX centerX
  rw [center_cast width hw]
  ring

/-- The integer-centred grid row lies `(height mod 2) / 2` above the exact one; the two
agree on a canvas of even height. -/
theorem gridPixelYExact_eq_dataToPixelY (height : ℤ) (hh : 0 < height) (s : Widget) (y : ℚ) :
    gridPixelYExact height s y = dataToPixelY height s y - ((height % 2 : ℤ) : ℚ) / 2 := by
  unfold gridPixelYExact dataToPixelY centerY
  rw [center_cast height hh]
  ring

/-! ## Helper lemmas: the repaint -/

theorem paintGL_dirty (s : Widget) : (paintGL s).m_isTextureDirty = false := by
  unfold paintGL
  cases h : s.m_isTextureDirty <;> simp [h]

theorem paintGL_view (s : Widget) :
    (paintGL s).width = s.width ∧ (paintGL s).height = s.height
      ∧ (paintGL s).m_viewRangeX = s.m_viewRangeX
      ∧ (paintGL s).m_viewRangeY = s.m_viewRangeY
      ∧ (paintGL s).m_viewOffset = s.m_viewOffset
      ∧ (paintGL s).m_lastMousePos = s.m_lastMousePos
      ∧ (paintGL s).m_currentMouseGLPos = s.m_currentMouseGLPos
      ∧ (paintGL s).m_isMousePosVisible = s.m_isMousePosVisible := by
  unfold paintGL
  cases h : s.m_isTextureDirty <;> simp [h]

@[simp] theorem updateGL_width (s : Widget) : (updateGL s).width = s.width :=
  (paintGL_view s).1

@[simp] theorem updateGL_height (s : Widget) : (updateGL s).height = s.height :=
  (paintGL_view s).2.1

@[simp] theorem updateGL_viewRangeX (s : Widget) :
    (updateGL s).m_viewRangeX = s.m_viewRangeX := (paintGL_view s).2.2.1

@[simp] theorem updateGL_viewRangeY (s : Widget) :
    (updateGL s).m_viewRangeY = s.m_viewRangeY := (paintGL_view s).2.2.2.1

@[simp] theorem updateGL_viewOffset (s : Widget) :
    (updateGL s).m_viewOffset = s.m_viewOffset := (paintGL_view s).2.2.2.2.1

@[simp] theorem updateGL_lastMousePos (s : Widget) :
    (updateGL s).m_lastMousePos = s.m_lastMousePos := (paintGL_view s).2.2.2.2.2.1

@[simp] theorem updateGL_currentMouseGLPos (s : Widget) :
    (updateGL s).m_currentMouseGLPos = s.m_currentMouseGLPos := (paintGL_view s).2.2.2.2.2.2.1

@[simp] theorem updateGL_isMousePosVisible (s : Widget) :
    (updateGL s).m_isMousePosVisible = s.m_isMousePosVisible := (paintGL_view s).2.2.2.2.2.2.2

@[simp] theorem updateGL_dirty (s : Widget) : (updateGL s).m_isTextureDirty = false :=
  paintGL_dirty s

/-- The grid image depends on the view only, which a repaint leaves alone. -/
theorem generateGridTextureImage_paintGL (width height : ℤ) (s : Widget) :
    generateGridTextureImage width height (paintGL s) = generateGridTextureImage width height s := by
  unfold paintGL
  cases h : s.m_isTextureDirty
  · simp
  · simp only [if_true]
    rfl

/-- A repaint of a dirty widget leaves the grid image up to date. -/
theorem paintGL_current (s : Widget) (hd : s.m_isTextureDirty = true) :
    GridImageCurrent (paintGL s) := by
  unfold GridImageCurrent
  rw [generateGridTextureImage_paintGL, (paintGL_view s).1, (paintGL_view s).2.1]
  simp [paintGL, hd]

/-- Marking the grid dirty and repainting leaves a clear flag and an up-to-date image. -/
theorem updateGL_markTextureDirty_current (s : Widget) :
    GridImageCurrent (updateGL (markTextureDirty s)) :=
  paintGL_current (markTextureDirty s) rfl

/-! ## Helper lemmas: mouse move -/

theorem mouseMoveEvent_viewRange (leftButton : Bool) (e : QPoint) (s : Widget) :
    (mouseMoveEvent leftButton e s).m_viewRangeX = s.m_viewRangeX
      ∧ (mouseMoveEvent leftButton e s).m_viewRangeY = s.m_viewRangeY := by
  unfold mouseMoveEvent
  cases leftButton <;> cases hv : s.m_isMousePosVisible <;> simp [markTextureDirty, hv]

theorem mouseMoveEvent_left_offset (e : QPoint) (s : Widget) :
    (mouseMoveEvent true e s).m_viewOffset
      = ⟨s.m_viewOffset.x
            + ((-(e.x - s.m_lastMousePos.x) : ℤ) : ℚ) * (2 * s.m_viewRangeX) / (s.width : ℚ),
          s.m_viewOffset.y
            + ((-(e.y - s.m_lastMousePos.y) : ℤ) : ℚ) * (2 * s.m_viewRangeY) / (s.height : ℚ)⟩ := by
  unfold mouseMoveEvent
  cases hv : s.m_isMousePosVisible <;> simp [markTextureDirty, hv]

theorem markTextureDirty_isMousePosVisible (s : Widget) :
    (markTextureDirty s).m_isMousePosVisible = s.m_isMousePosVisible := rfl

/-- A mouse move with the left button down, or with the cursor visible, ends in a repaint
of a widget marked dirty. -/
theorem mouseMoveEvent_repaints (leftButton : Bool) (e : QPoint) (s : Widget)
    (h : leftButton = true ∨ s.m_isMousePosVisible = true) :
    ∃ t : Widget, mouseMoveEvent leftButton e s = updateGL (markTextureDirty t) := by
  unfold mouseMoveEvent
  cases leftButton
  · rcases h with h | h
    · exact absurd h (by decide)
    · simp only [Bool.false_eq_true, if_false, h, if_true]
      exact ⟨_, rfl⟩
  · cases hv : s.m_isMousePosVisible
    · simp only [if_true, updateGL_isMousePosVisible, markTextureDirty_isMousePosVisible, hv,
        Bool.false_eq_true, if_false]
      exact ⟨_, rfl⟩
    · simp only [if_true, updateGL_isMousePosVisible, markTextureDirty_isMousePosVisible, hv]
      exact ⟨_, rfl⟩

theorem mouseMoveEvent_left_frame (e : QPoint) (s : Widget) :
    (mouseMoveEvent true e s).m_lastMousePos = e
      ∧ (mouseMoveEvent true e s).width = s.width
      ∧ (mouseMoveEvent true e s).height = s.height := by
  unfold mouseMoveEvent
  cases hv : s.m_isMousePosVisible <;> simp [markTextureDirty, hv]

theorem mouseMoveEvent_repainted_state (leftButton : Bool) (e : QPoint) (s : Widget)
    (h : leftButton = true ∨ s.m_isMousePosVisible = true) :
    (mouseMoveEvent leftButton e s).m_isTextureDirty = false
      ∧ GridImageCurrent (mouseMoveEvent leftButton e s) := by
  obtain ⟨t, ht⟩ := mouseMoveEvent_repaints leftButton e s h
  rw [ht]
  exact ⟨updateGL_dirty _, updateGL_markTextureDirty_current t⟩

/-! ## Round trip between the grid mapping and the mouse mapping -/

/-- The X zoom leaves the exact pixel column of the pivot where it was. -/
theorem xZoom_pivot_fixed (s : Widget) (angleDeltaY : ℤ) (mousePos : QPoint)
    (hrx : 0 < s.m_viewRangeX) :
    gridPixelXExact s.width (wheelEvent false angleDeltaY mousePos s)
        (mouseGLX s (mousePos.x : ℚ))
      = gridPixelXExact s.width s (mouseGLX s (mousePos.x : ℚ)) := by
  have hf := wheelScaleFactor_pos angleDeltaY
  have hf0 : wheelScaleFactor angleDeltaY ≠ 0 := ne_of_gt hf
  have hr0 : s.m_viewRangeX ≠ 0 := ne_of_gt hrx
  simp only [wheelEvent, markTextureDirty, gridPixelXExact, xPixelPerUnit, Bool.not_false,
    if_true, updateGL_viewOffset, updateGL_viewRangeX]
  field_simp
  ring

/-- The Y zoom moves the exact pixel row of the pivot `pivotY` by
`-height * pivotY * (1 - factor) / (halfRangeY * factor)`. -/
theorem yZoom_pivot_shift (s : Widget) (angleDeltaY : ℤ) (mousePos : QPoint)
    (hry : 0 < s.m_viewRangeY) :
    gridPixelYExact s.height (wheelEvent true angleDeltaY mousePos s)
        (mouseGLY s (mousePos.y : ℚ))
      - gridPixelYExact s.height s (mouseGLY s (mousePos.y : ℚ))
      = - (s.height : ℚ) * mouseGLY s (mousePos.y : ℚ) * (1 - wheelScaleFactor angleDeltaY)
          / (s.m_viewRangeY * wheelScaleFactor angleDeltaY) := by
  have hf := wheelScaleFactor_pos angleDeltaY
  have hf0 : wheelScaleFactor angleDeltaY ≠ 0 := ne_of_gt hf
  have hr0 : s.m_viewRangeY ≠ 0 := ne_of_gt hry
  simp only [wheelEvent, markTextureDirty, gridPixelYExact, yPixelPerUnit, Bool.not_true,
    updateGL_viewOffset, updateGL_viewRangeY]
  simp only [Bool.false_eq_true, if_false]
  field_simp
  ring

/-- C2, the code at a failing input. On the initial 1200 x 800 view a Ctrl+wheel step up with
the mouse at pixel `(600, 0)` has the pivot `y = 8`, drawn at pixel row 0 before the zoom
and at row `-800/9` (truncated: `-88`) after it: the pivot moves by more than 88 pixels. -/
theorem yZoom_moves_pivot_at_top_edge :
    mouseGLY (initialWidget 1200 800) 0 = 8
      ∧ gridPixelYExact 800 (initialWidget 1200 800) 8 = 0
      ∧ gridPixelYExact 800 (wheelEvent true 120 ⟨600, 0⟩ (initialWidget 1200 800)) 8 = -800/9
      ∧ gridPixelY 800 (initialWidget 1200 800) 8 = 0
      ∧ gridPixelY 800 (wheelEvent true 120 ⟨600, 0⟩ (initialWidget 1200 800)) 8 = -88
      ∧ ¬ (|gridPixelYExact 800 (wheelEvent true 120 ⟨600, 0⟩ (initialWidget 1200 800)) 8
            - gridPixelYExact 800 (initialWidget 1200 800) 8| < 1) := by
  have hc : Int.tdiv 800 2 = 400 := by decide
  have hfl : ⌈(-800 / 9 : ℚ)⌉ = -88 := by
    rw [Int.ceil_eq_iff]; norm_num
  have h0 : gridPixelYExact 800 (initialWidget 1200 800) 8 = 0 := by
    norm_num [gridPixelYExact, yPixelPerUnit, centerY, initialWidget, BASE_Y_RANGE, hc]
  have h : gridPixelYExact 800 (wheelEvent true 120 ⟨600, 0⟩ (initialWidget 1200 800)) 8
      = -800/9 := by
    norm_num [gridPixelYExact, yPixelPerUnit, centerY, initialWidget, BASE_Y_RANGE, hc,
      wheelEvent, wheelScaleFactor, markTextureDirty, mouseGLY]
  refine ⟨?_, h0, h, ?_, ?_, ?_⟩
  · norm_num [mouseGLY, initialWidget, BASE_Y_RANGE]
  · unfold gridPixelY toInt INT_MIN INT_MAX
    rw [h0]
    norm_num
  · unfold gridPixelY toInt INT_MIN INT_MAX
    rw [h]
    simp only [show ¬ (0 : ℚ) ≤ -800 / 9 by norm_num, if_false, hfl]
    norm_num
  · rw [h, h0]
    norm_num [abs_of_neg]

/-- C3. For a positive X half-range and a positive canvas width, a plain-wheel zoom in
either direction leaves the pixel column of the data point under the mouse less than one
pixel from where it was (the exact column and the truncated column do not move at all),
scales the X half-range by the wheel factor and leaves the Y half-range and the Y offset
unchanged. -/
theorem xZoom_center_preserving (s : Widget) (angleDeltaY : ℤ) (mousePos : QPoint)
    (hrx : 0 < s.m_viewRangeX) (hw : 0 < s.width) :
    |gridPixelXExact s.width (wheelEvent false angleDeltaY mousePos s)
          (mouseGLX s (mousePos.x : ℚ))
        - gridPixelXExact s.width s (mouseGLX s (mousePos.x : ℚ))| < 1
      ∧ |gridPixelX s.width (wheelEvent false angleDeltaY mousePos s)
          (mouseGLX s (mousePos.x : ℚ))
        - gridPixelX s.width s (mouseGLX s (mousePos.x : ℚ))| < 1
      ∧ (wheelEvent false angleDeltaY mousePos s).m_viewRangeX
          = s.m_viewRangeX * wheelScaleFactor angleDeltaY
      ∧ (wheelEvent false angleDeltaY mousePos s).m_viewRangeY = s.m_viewRangeY
      ∧ (wheelEvent false angleDeltaY mousePos s).m_viewOffset.y = s.m_viewOffset.y := by
  have _ := hw
  have h := xZoom_pivot_fixed s angleDeltaY mousePos hrx
  refine ⟨?_, ?_, ?_, ?_, ?_⟩
  · rw [h]; simp
  · unfold gridPixelX
    rw [h]; simp
  · simp [wheelEvent, markTextureDirty]
  · simp [wheelEvent, markTextureDirty]
  · simp [wheelEvent, markTextureDirty]

/-- A wheel step up at pixel `(900, 100)` on the initial 1200 x 800 view. -/
theorem xZoom_center_preserving_witness :
    0 < (initialWidget 1200 800).m_viewRangeX ∧ 0 < (initialWidget 1200 800).width
      ∧ |gridPixelXExact 1200 (wheelEvent false 120 ⟨900, 100⟩ (initialWidget 1200 800))
            (mouseGLX (initialWidget 1200 800) 900)
          - gridPixelXExact 1200 (initialWidget 1200 800)
            (mouseGLX (initialWidget 1200 800) 900)| < 1 :=
  ⟨by norm_num [initialWidget, BASE_X_RANGE], by norm_num [initialWidget],
    by
      have h := (xZoom_center_preserving (initialWidget 1200 800) 120 ⟨900, 100⟩
        (by norm_num [initialWidget, BASE_X_RANGE]) (by norm_num [initialWidget])).1
      simpa [initialWidget] using h⟩

/-! ## Tick interval selection -/

theorem ideal_le_iff (c pixelPerUnit : ℚ) (hp : 0 < pixelPerUnit) :
    c ≥ 80 / pixelPerUnit ↔ 80 ≤ c * pixelPerUnit := by
  rw [ge_iff_le, div_le_iff₀ hp]

/-- The loop of `calculateOptimalTickInterval` as a cascade over the nine candidates. -/
theorem selectedInterval_cascade (p : ℚ) (hp : 0 < p) :
    selectedInterval p =
      if 80 ≤ 1/10 * p then 1/10 else if 80 ≤ 1/5 * p then 1/5
      else if 80 ≤ 1/2 * p then 1/2 else if 80 ≤ 1 * p then 1
      else if 80 ≤ 2 * p then 2 else if 80 ≤ 5 * p then 5
      else if 80 ≤ 10 * p then 10 else if 80 ≤ 20 * p then 20
      else 50 := by
  simp only [selectedInterval, candidates, selectLoop, ideal_le_iff _ _ hp, ite_self]

theorem specCandidate_cascade (p : ℚ) :
    specCandidate p =
      if 80 ≤ 1/10 * p then 1/10 else if 80 ≤ 1/5 * p then 1/5
      else if 80 ≤ 1/2 * p then 1/2 else if 80 ≤ 1 * p then 1
      else if 80 ≤ 2 * p then 2 else if 80 ≤ 5 * p then 5
      else if 80 ≤ 10 * p then 10 else if 80 ≤ 20 * p then 20
      else 50 := by
  by_cases h1 : 80 ≤ 1/10 * p
  · have h2 : 80 ≤ 1/5 * p := by linarith
    have h3 : 80 ≤ 1/2 * p := by linarith
    have h4 : 80 ≤ 1 * p := by linarith
    have h5 : 80 ≤ 2 * p := by linarith
    have h6 : 80 ≤ 5 * p := by linarith
    have h7 : 80 ≤ 10 * p := by linarith
    have h8 : 80 ≤ 20 * p := by linarith
    have h9 : 80 ≤ 50 * p := by linarith
    simp only [specCandidate, specLadder, List.filter, ge_iff_le, h1, h2, h3, h4, h5, h6, h7, h8,
      h9, decide_True, List.foldl, if_true]
    norm_num
  by_cases h2 : 80 ≤ 1/5 * p
  · have h3 : 80 ≤ 1/2 * p := by linarith
    have h4 : 80 ≤ 1 * p := by linarith
    have h5 : 80 ≤ 2 * p := by linarith
    have h6 : 80 ≤ 5 * p := by linarith
    have h7 : 80 ≤ 10 * p := by linarith
    have h8 : 80 ≤ 20 * p := by linarith
    have h9 : 80 ≤ 50 * p := by linarith
    simp only [specCandidate, specLadder, List.filter, ge_iff_le, h1, h2, h3, h4, h5, h6, h7, h8,
      h9, decide_True, decide_False, List.foldl, if_true, if_false]
    norm_num
  by_cases h3 : 80 ≤ 1/2 * p
  · have h4 : 80 ≤ 1 * p := by linarith
    have h5 : 80 ≤ 2 * p := by linarith
    have h6 : 80 ≤ 5 * p := by linarith
    have h7 : 80 ≤ 10 * p := by linarith
    have h8 : 80 ≤ 20 * p := by linarith
    have h9 : 80 ≤ 50 * p := by linarith
    simp only [specCandidate, specLadder, List.filter, ge_iff_le, h1, h2, h3, h4, h5, h6, h7, h8,
      h9, decide_True, decide_False, List.foldl, if_true, if_false]
    norm_num
  by_cases h4 : 80 ≤ 1 * p
  · have h5 : 80 ≤ 2 * p := by linarith
    have h6 : 80 ≤ 5 * p := by linarith
    have h7 : 80 ≤ 10 * p := by linarith
    have h8 : 80 ≤ 20 * p := by linarith
    have h9 : 80 ≤ 50 * p := by linarith
    simp only [specCandidate, specLadder, List.filter, ge_iff_le, h1, h2, h3, h4, h5, h6, h7, h8,
      h9, decide_True, decide_False, List.foldl, if_true, if_false]
    norm_num
  by_cases h5 : 80 ≤ 2 * p
  · have h6 : 80 ≤ 5 * p := by linarith
    have h7 : 80 ≤ 10 * p := by linarith
    have h8 : 80 ≤ 20 * p := by linarith
    have h9 : 80 ≤ 50 * p := by linarith
    simp only [specCandidate, specLadder, List.filter, ge_iff_le, h1, h2, h3, h4, h5, h6, h7, h8,
      h9, decide_True, decide_False, List.foldl, if_true, if_false]
    norm_num
  by_cases h6 : 80 ≤ 5 * p
  · have h7 : 80 ≤ 10 * p := by linarith
    have h8 : 80 ≤ 20 * p := by linarith
    have h9 : 80 ≤ 50 * p := by linarith
    simp only [specCandidate, specLadder, List.filter, ge_iff_le, h1, h2, h3, h4, h5, h6, h7, h8,
      h9, decide_True, decide_False, List.foldl, if_true, if_false]
    norm_num
  by_cases h7 : 80 ≤ 10 * p
  · have h8 : 80 ≤ 20 * p := by linarith
    have h9 : 80 ≤ 50 * p := by linarith
    simp only [specCandidate, specLadder, List.filter, ge_iff_le, h1, h2, h3, h4, h5, h6, h7, h8,
      h9, decide_True, decide_False, List.foldl, if_true, if_false]
    norm_num
  by_cases h8 : 80 ≤ 20 * p
  · have h9 : 80 ≤ 50 * p := by linarith
    simp only [specCandidate, specLadder, List.filter, ge_iff_le, h1, h2, h3, h4, h5, h6, h7, h8,
      h9, decide_True, decide_False, List.foldl, if_true, if_false]
    norm_num
  by_cases h9 : 80 ≤ 50 * p
  · simp only [specCandidate, specLadder, List.filter, ge_iff_le, h1, h2, h3, h4, h5, h6, h7, h8,
      h9, decide_True, decide_False, List.foldl, if_true, if_false]
  · simp only [specCandidate, specLadder, List.filter, ge_iff_le, h1, h2, h3, h4, h5, h6, h7, h8,
      h9, decide_True, decide_False, List.foldl, if_true, if_false]

theorem selectedInterval_pos (p : ℚ) (hp : 0 < p) : 0 < selectedInterval p := by
  rw [selectedInterval_cascade p hp]
  split_ifs <;> norm_num

theorem calculateOptimalTickInterval_unfold (range p : ℚ) :
    calculateOptimalTickInterval range p =
      if tickCountBefore range p < 5 then selectedInterval p / 2
      else if tickCountBefore range p > 10 then selectedInterval p * 2
      else selectedInterval p := rfl

theorem selectLoop_eq_or_mem (ideal : ℚ) (l : List ℚ) :
    ∀ b : ℚ, selectLoop ideal l b = b ∨ selectLoop ideal l b ∈ l := by
  induction l with
  | nil => intro b; left; rfl
  | cons c cs ih =>
    intro b
    right
    simp only [selectLoop]
    by_cases h : c ≥ ideal
    · rw [if_pos h]; exact List.mem_cons_self c cs
    · rw [if_neg h]
      rcases ih c with h1 | h1
      · rw [h1]; exact List.mem_cons_self c cs
      · exact List.mem_cons_of_mem c h1

theorem selectLoop_antitone (i1 i2 : ℚ) (h : i2 ≤ i1) (l : List ℚ) :
    l.Pairwise (· ≤ ·) → ∀ b : ℚ, selectLoop i2 l b ≤ selectLoop i1 l b := by
  induction l with
  | nil => intro _ b; exact le_refl b
  | cons c cs ih =>
    intro hs b
    rw [List.pairwise_cons] at hs
    simp only [selectLoop]
    by_cases h1 : c ≥ i1
    · have h2 : c ≥ i2 := le_trans h h1
      rw [if_pos h1, if_pos h2]
    · rw [if_neg h1]
      by_cases h2 : c ≥ i2
      · rw [if_pos h2]
        rcases selectLoop_eq_or_mem i1 cs c with e | m
        · rw [e]
        · exact hs.1 _ m
      · rw [if_neg h2]
        exact ih hs.2 c

theorem candidates_sorted : candidates.Pairwise (· ≤ ·) := by
  norm_num [candidates]

theorem selectedInterval_mem (p : ℚ) : selectedInterval p ∈ candidates := by
  unfold selectedInterval
  rcases selectLoop_eq_or_mem (80 / p) candidates (candidates.headD 0) with h | h
  · rw [h]; simp [candidates]
  · exact h

theorem selectedInterval_antitone (p1 p2 : ℚ) (hp1 : 0 < p1) (h12 : p1 ≤ p2) :
    selectedInterval p2 ≤ selectedInterval p1 := by
  unfold selectedInterval
  exact selectLoop_antitone _ _ (div_le_div_of_nonneg_left (by norm_num) hp1 h12) _
    candidates_sorted _

theorem candidates_gap (a b : ℚ) (ha : a ∈ candidates) (hb : b ∈ candidates) (hab : b < a) :
    2 * b ≤ a := by
  simp only [candidates, List.mem_cons, List.mem_singleton, List.not_mem_nil, or_false] at ha hb
  rcases ha with rfl | rfl | rfl | rfl | rfl | rfl | rfl | rfl | rfl <;>
    rcases hb with rfl | rfl | rfl | rfl | rfl | rfl | rfl | rfl | rfl <;>
    norm_num at hab ⊢

theorem selectedInterval_gap (p1 p2 : ℚ) (hp1 : 0 < p1) (h12 : p1 ≤ p2) :
    selectedInterval p2 = selectedInterval p1 ∨ 2 * selectedInterval p2 ≤ selectedInterval p1 := by
  rcases eq_or_lt_of_le (selectedInterval_antitone p1 p2 hp1 h12) with h | h
  · left; exact h
  · right; exact candidates_gap _ _ (selectedInterval_mem p1) (selectedInterval_mem p2) h

theorem selectedInterval_ge_tenth (p : ℚ) : 1 / 10 ≤ selectedInterval p := by
  have h := selectedInterval_mem p
  simp only [candidates, List.mem_cons, List.mem_singleton, List.not_mem_nil, or_false] at h
  rcases h with h | h | h | h | h | h | h | h | h <;> rw [h] <;> norm_num

/-- The tick count of a half-range up to `10^8` fits a 32-bit `int`. -/
theorem tickRatio_in_range (range p : ℚ) (h0 : 0 < range) (h1 : range ≤ 100000000) :
    0 ≤ 2 * range / selectedInterval p ∧ 2 * range / selectedInterval p < 2147483648 := by
  have hc := selectedInterval_ge_tenth p
  have hc0 : 0 < selectedInterval p := by linarith
  constructor
  · exact le_of_lt (div_pos (by linarith) hc0)
  · rw [div_lt_iff₀ hc0]
    nlinarith

/-! ## The tick interval against its specification -/

/-- C4, as amended. For a positive half-range and a positive pixel density whose tick count
`n = floor(2*halfRange / c)` fits a 32-bit `int` (`2*halfRange / c < 2^31`),
`calculateOptimalTickInterval` returns the specified interval: with `c` the smallest ladder
value whose spacing `c * pixelsPerUnit` reaches 80 (or 50 when none does), the result is
`c/2` if `n < 5`, `2*c` if `n > 10`, and `c` otherwise. -/
theorem calculateOptimalTickInterval_eq_spec (halfRange pixelsPerUnit : ℚ)
    (hr : 0 < halfRange) (hp : 0 < pixelsPerUnit)
    (hfit : 2 * halfRange / specCandidate pixelsPerUnit < 2147483648) :
    calculateOptimalTickInterval halfRange pixelsPerUnit
      = specTickInterval halfRange pixelsPerUnit := by
  have hsel : selectedInterval pixelsPerUnit = specCandidate pixelsPerUnit := by
    rw [selectedInterval_cascade _ hp, specCandidate_cascade]
  have hpos : 0 < specCandidate pixelsPerUnit := by
    rw [← hsel]; exact selectedInterval_pos _ hp
  have hq : 0 ≤ 2 * halfRange / specCandidate pixelsPerUnit :=
    le_of_lt (div_pos (by linarith) hpos)
  unfold calculateOptimalTickInterval specTickInterval
  simp only [hsel, toInt_of_range _ hq hfit, MIN_TICK_COUNT, MAX_TICK_COUNT]
  rw [mul_comm (specCandidate pixelsPerUnit) 2]

/-- The refinement at half-range 10 and 60 pixels per unit (the initial 1200 pixel wide view). -/
theorem calculateOptimalTickInterval_eq_spec_witness :
    (0 : ℚ) < 10 ∧ (0 : ℚ) < 60 ∧ 2 * 10 / specCandidate 60 < 2147483648
      ∧ calculateOptimalTickInterval 10 60 = specTickInterval 10 60 :=
  have hfit : 2 * 10 / specCandidate 60 < 2147483648 := by
    rw [specCandidate_cascade]; norm_num
  ⟨by norm_num, by norm_num, hfit,
    calculateOptimalTickInterval_eq_spec 10 60 (by norm_num) (by norm_num) hfit⟩

/-- At half-range `2^30` and 1024 pixels per unit the selected value is 1/10 and the tick
count `21474836480` does not fit a 32-bit `int`: the conversion yields `INT_MIN`, the code
halves to 1/20, and the specified interval is the doubled 1/5. -/
theorem tickInterval_differs_past_int_range :
    selectedInterval 1024 = 1 / 10
      ∧ tickCountBefore 1073741824 1024 = INT_MIN
      ∧ calculateOptimalTickInterval 1073741824 1024 = 1 / 20
      ∧ specTickInterval 1073741824 1024 = 1 / 5
      ∧ calculateOptimalTickInterval 1073741824 1024 ≠ specTickInterval 1073741824 1024 := by
  have hs : selectedInterval 1024 = 1 / 10 := by
    rw [selectedInterval_cascade 1024 (by norm_num)]; norm_num
  have hsp : specCandidate 1024 = 1 / 10 := by
    rw [specCandidate_cascade]; norm_num
  have ht : tickCountBefore 1073741824 1024 = INT_MIN := by
    unfold tickCountBefore
    rw [hs]
    norm_num [toInt, INT_MIN, INT_MAX]
  have hc : calculateOptimalTickInterval 1073741824 1024 = 1 / 20 := by
    rw [calculateOptimalTickInterval_unfold, ht, hs]
    norm_num [INT_MIN]
  have hspec : specTickInterval 1073741824 1024 = 1 / 5 := by
    unfold specTickInterval
    rw [hsp]
    norm_num
  refine ⟨hs, ht, hc, hspec, ?_⟩
  rw [hc, hspec]
  norm_num

/-! ## Monotonicity in the pixel density -/

/-- C5, as amended. For a fixed half-range in `(0, 10^8]` (so that the tick count fits a
32-bit `int`) and `0 < p1 ≤ p2`, the ladder value selected before the correction is
non-increasing in the pixel density, and so is the interval after the correction, unless
the correction halves at `p1` (tick count below 5) and doubles at `p2` (tick count
above 10). -/
theorem tickInterval_nonincreasing_in_density (halfRange p1 p2 : ℚ)
    (hr : 0 < halfRange) (hr2 : halfRange ≤ 100000000) (hp1 : 0 < p1) (h12 : p1 ≤ p2) :
    selectedInterval p2 ≤ selectedInterval p1
      ∧ (¬ (tickCountBefore halfRange p1 < 5 ∧ tickCountBefore halfRange p2 > 10) →
          calculateOptimalTickInterval halfRange p2
            ≤ calculateOptimalTickInterval halfRange p1) := by
  have hp2 : 0 < p2 := lt_of_lt_of_le hp1 h12
  have hc1 := selectedInterval_pos p1 hp1
  have hc2 := selectedInterval_pos p2 hp2
  have hle := selectedInterval_antitone p1 p2 hp1 h12
  refine ⟨hle, ?_⟩
  intro hex
  have hq : 2 * halfRange / selectedInterval p1 ≤ 2 * halfRange / selectedInterval p2 :=
    div_le_div_of_nonneg_left (by linarith) hc2 hle
  have hq1 := tickRatio_in_range halfRange p1 hr hr2
  have hq2 := tickRatio_in_range halfRange p2 hr hr2
  have hn : tickCountBefore halfRange p1 ≤ tickCountBefore halfRange p2 := by
    unfold tickCountBefore
    rw [toInt_of_range _ hq1.1 hq1.2, toInt_of_range _ hq2.1 hq2.2]
    exact Int.floor_mono hq
  rw [calculateOptimalTickInterval_unfold, calculateOptimalTickInterval_unfold]
  rcases selectedInterval_gap p1 p2 hp1 h12 with heq | hgap
  · have hnn : tickCountBefore halfRange p2 = tickCountBefore halfRange p1 := by
      unfold tickCountBefore; rw [heq]
    rw [heq, hnn]
  · split_ifs with a1 a2 a3 a4 a5 a6
    all_goals first
      | linarith
      | (exfalso; omega)

theorem selectedInterval_at_30 : selectedInterval 30 = 5 := by
  rw [selectedInterval_cascade 30 (by norm_num)]; norm_num

theorem selectedInterval_at_60 : selectedInterval 60 = 2 := by
  rw [selectedInterval_cascade 60 (by norm_num)]; norm_num

theorem tickCountBefore_10_60 : tickCountBefore 10 60 = 10 := by
  unfold tickCountBefore
  rw [selectedInterval_at_60]
  norm_num [toInt, INT_MIN, INT_MAX]

/-- At half-range 10 the density 30 selects 5 (4 ticks, halved to 5/2) and the density 60
selects 2 (10 ticks, kept): the interval after the correction falls from 5/2 to 2. -/
theorem tickInterval_nonincreasing_in_density_witness :
    (0 : ℚ) < 10 ∧ (10 : ℚ) ≤ 100000000 ∧ (0 : ℚ) < 30 ∧ (30 : ℚ) ≤ 60
      ∧ ¬ (tickCountBefore 10 30 < 5 ∧ tickCountBefore 10 60 > 10)
      ∧ selectedInterval 60 ≤ selectedInterval 30
      ∧ calculateOptimalTickInterval 10 60 ≤ calculateOptimalTickInterval 10 30 :=
  have hex : ¬ (tickCountBefore 10 30 < 5 ∧ tickCountBefore 10 60 > 10) := by
    rw [tickCountBefore_10_60]; norm_num
  ⟨by norm_num, by norm_num, by norm_num, by norm_num, hex,
    (tickInterval_nonincreasing_in_density 10 30 60 (by norm_num) (by norm_num) (by norm_num)
      (by norm_num)).1,
    (tickInterval_nonincreasing_in_density 10 30 60 (by norm_num) (by norm_num) (by norm_num)
      (by norm_num)).2 hex⟩

theorem selectedInterval_at_1 : selectedInterval 1 = 50 := by
  rw [selectedInterval_cascade 1 (by norm_num)]; norm_num

theorem selectedInterval_at_100 : selectedInterval 100 = 1 := by
  rw [selectedInterval_cascade 100 (by norm_num)]; norm_num

/-- At half-range 10 the density 1 gives the interval 25 and the larger density 100 gives
the smaller interval 2. -/
theorem tickInterval_not_nondecreasing :
    calculateOptimalTickInterval 10 1 = 25 ∧ calculateOptimalTickInterval 10 100 = 2
      ∧ ¬ (calculateOptimalTickInterval 10 1 ≤ calculateOptimalTickInterval 10 100) := by
  have h1 : calculateOptimalTickInterval 10 1 = 25 := by
    unfold calculateOptimalTickInterval
    rw [selectedInterval_at_1]
    norm_num [toInt, INT_MIN, INT_MAX, MIN_TICK_COUNT, MAX_TICK_COUNT]
  have h2 : calculateOptimalTickInterval 10 100 = 2 := by
    unfold calculateOptimalTickInterval
    rw [selectedInterval_at_100]
    norm_num [toInt, INT_MIN, INT_MAX, MIN_TICK_COUNT, MAX_TICK_COUNT]
  refine ⟨h1, h2, ?_⟩
  rw [h1, h2]
  norm_num

/-- At half-range 6/5 the correction halves at density 200 and doubles at density 400, and the
interval grows from 1/4 to 2/5: across that pair of corrections the interval can increase. -/
theorem tickInterval_grows_from_halved_to_doubled :
    calculateOptimalTickInterval (6/5) 200 = 1/4 ∧ calculateOptimalTickInterval (6/5) 400 = 2/5 := by
  have s1 : selectedInterval 200 = 1/2 := by
    rw [selectedInterval_cascade 200 (by norm_num)]; norm_num
  have s2 : selectedInterval 400 = 1/5 := by
    rw [selectedInterval_cascade 400 (by norm_num)]; norm_num
  constructor
  · unfold calculateOptimalTickInterval
    rw [s1]
    norm_num [toInt, INT_MIN, INT_MAX, MIN_TICK_COUNT, MAX_TICK_COUNT, Int.floor_eq_iff]
  · unfold calculateOptimalTickInterval
    rw [s2]
    norm_num [toInt, INT_MIN, INT_MAX, MIN_TICK_COUNT, MAX_TICK_COUNT, Int.floor_eq_iff]

/-! ## Tick count after the correction -/

/-- One correction step brings a count between 3/2 and 42 into `[3, 20]`. -/
theorem tickCountAfter_bounds_of_ratio (range p : ℚ) (hc : 0 < selectedInterval p)
    (hlo : 3 / 2 ≤ 2 * range / selectedInterval p)
    (hhi : 2 * range / selectedInterval p < 42) :
    3 ≤ tickCountAfter range p ∧ tickCountAfter range p ≤ 20 := by
  have hq0 : 0 ≤ 2 * range / selectedInterval p := by linarith
  have hc0 : selectedInterval p ≠ 0 := ne_of_gt hc
  unfold tickCountAfter
  rw [calculateOptimalTickInterval_unfold]
  unfold tickCountBefore
  rw [toInt_of_range _ hq0 (by linarith)]
  by_cases h5 : ⌊2 * range / selectedInterval p⌋ < 5
  · rw [if_pos h5]
    have hlt : 2 * range / selectedInterval p < 5 := by
      have := Int.floor_lt.mp h5
      exact_mod_cast this
    have e : 2 * range / (selectedInterval p / 2) = 2 * (2 * range / selectedInterval p) := by
      field_simp
      ring
    rw [e]
    constructor
    · apply Int.le_floor.mpr
      push_cast
      linarith
    · have : ⌊2 * (2 * range / selectedInterval p)⌋ < 21 := by
        apply Int.floor_lt.mpr
        push_cast
        linarith
      omega
  · rw [if_neg h5]
    by_cases h10 : ⌊2 * range / selectedInterval p⌋ > 10
    · rw [if_pos h10]
      have hge : (11 : ℚ) ≤ 2 * range / selectedInterval p := by
        have h11 : (11 : ℤ) ≤ ⌊2 * range / selectedInterval p⌋ := by omega
        have := Int.le_floor.mp h11
        exact_mod_cast this
      have e : 2 * range / (selectedInterval p * 2) = (2 * range / selectedInterval p) / 2 := by
        field_simp
      rw [e]
      constructor
      · apply Int.le_floor.mpr
        push_cast
        linarith
      · have : ⌊2 * range / selectedInterval p / 2⌋ < 21 := by
          apply Int.floor_lt.mpr
          push_cast
          linarith
        omega
    · rw [if_neg h10]
      omega

/-- Within the stated window the count before the correction lies between 3/2 and 42. -/
theorem selectedInterval_ratio_bounds (range p : ℚ) (hp : 0 < p)
    (hr1 : 1 / 2 ≤ range) (hr2 : range ≤ 1000)
    (hd1 : 300 ≤ 2 * range * p) (hd2 : 2 * range * p < 3360) :
    3 / 2 ≤ 2 * range / selectedInterval p ∧ 2 * range / selectedInterval p < 42 := by
  have hc := selectedInterval_pos p hp
  rw [le_div_iff₀ hc, div_lt_iff₀ hc]
  have hrp1 : 1 / 2 * p ≤ range * p := mul_le_mul_of_nonneg_right hr1 (le_of_lt hp)
  have hrp2 : range * p ≤ 1000 * p := mul_le_mul_of_nonneg_right hr2 (le_of_lt hp)
  have key : 3 / 2 * selectedInterval p * p ≤ 2 * range * p
      ∧ 2 * range * p < 42 * selectedInterval p * p := by
    rw [selectedInterval_cascade p hp]
    split_ifs <;> constructor <;> linarith
  exact ⟨le_of_mul_le_mul_right key.1 hp, lt_of_mul_lt_mul_right key.2 (le_of_lt hp)⟩

/-- C6, as amended. For a half-range in `[1/2, 1000]` and a positive pixel density with
`300 ≤ 2 * halfRange * pixelsPerUnit < 3360` (the canvas dimension, as
`generateGridTextureImage` passes `pixelsPerUnit = dimension / (2 * halfRange)`), the tick
count after the correction, `floor(2*halfRange / interval)`, lies in `[3, 20]`. -/
theorem tickCountAfter_in_3_20 (halfRange pixelsPerUnit : ℚ)
    (hr1 : 1 / 2 ≤ halfRange) (hr2 : halfRange ≤ 1000) (hp : 0 < pixelsPerUnit)
    (hd1 : 300 ≤ 2 * halfRange * pixelsPerUnit) (hd2 : 2 * halfRange * pixelsPerUnit < 3360) :
    3 ≤ tickCountAfter halfRange pixelsPerUnit ∧ tickCountAfter halfRange pixelsPerUnit ≤ 20 := by
  have h := selectedInterval_ratio_bounds halfRange pixelsPerUnit hp hr1 hr2 hd1 hd2
  exact tickCountAfter_bounds_of_ratio halfRange pixelsPerUnit
    (selectedInterval_pos pixelsPerUnit hp) h.1 h.2

/-- The tick count at half-range 10 and 60 pixels per unit (the initial 1200 pixel wide view). -/
theorem tickCountAfter_in_3_20_witness :
    (1 / 2 : ℚ) ≤ 10 ∧ (10 : ℚ) ≤ 1000 ∧ (0 : ℚ) < 60
      ∧ (300 : ℚ) ≤ 2 * 10 * 60 ∧ (2 * 10 * 60 : ℚ) < 3360
      ∧ 3 ≤ tickCountAfter 10 60 ∧ tickCountAfter 10 60 ≤ 20 :=
  ⟨by norm_num, by norm_num, by norm_num, by norm_num, by norm_num,
    tickCountAfter_in_3_20 10 60 (by norm_num) (by norm_num) (by norm_num) (by norm_num)
      (by norm_num)⟩

/-- At half-range 1000 and 800 pixels per unit the selected value is 1/10, doubled once to
1/5, and the tick count is 10000. -/
theorem tickCountAfter_exceeds_20 :
    tickCountAfter 1000 800 = 10000
      ∧ ¬ (3 ≤ tickCountAfter 1000 800 ∧ tickCountAfter 1000 800 ≤ 20) := by
  have hs : selectedInterval 800 = 1 / 10 := by
    rw [selectedInterval_cascade 800 (by norm_num)]; norm_num
  have hc : calculateOptimalTickInterval 1000 800 = 1 / 5 := by
    unfold calculateOptimalTickInterval
    rw [hs]
    norm_num [toInt, INT_MIN, INT_MAX, MIN_TICK_COUNT, MAX_TICK_COUNT]
  have ht : tickCountAfter 1000 800 = 10000 := by
    unfold tickCountAfter
    rw [hc]
    norm_num
  refine ⟨ht, ?_⟩
  rw [ht]
  norm_num

/-- At half-range 1/2 and 1 pixel per unit the selected value is 50, halved once to 25, and
the tick count is 0. -/
theorem tickCountAfter_below_3 :
    tickCountAfter (1 / 2) 1 = 0 := by
  have hs : selectedInterval 1 = 50 := by
    rw [selectedInterval_cascade 1 (by norm_num)]; norm_num
  have hc : calculateOptimalTickInterval (1 / 2) 1 = 25 := by
    unfold calculateOptimalTickInterval
    rw [hs]
    norm_num [toInt, INT_MIN, INT_MAX, MIN_TICK_COUNT, MAX_TICK_COUNT]
  unfold tickCountAfter
  rw [hc]
  norm_num


/-- The tick counts of the grid that `generateGridTextureImage` draws: for a half-range in
`[1/2, 1000]` and a canvas dimension in `[300, 3360)` the count lies in `[3, 20]`. -/
theorem gridImage_xTickCount_bounds (s : Widget) (width height : ℤ)
    (hr1 : 1 / 2 ≤ s.m_viewRangeX) (hr2 : s.m_viewRangeX ≤ 1000)
    (hw1 : 300 ≤ width) (hw2 : width < 3360) :
    3 ≤ ⌊2 * s.m_viewRangeX / (generateGridTextureImage width height s).xTickInterval⌋
      ∧ ⌊2 * s.m_viewRangeX / (generateGridTextureImage width height s).xTickInterval⌋ ≤ 20 := by
  have hrx : 0 < s.m_viewRangeX := by linarith
  have hwq1 : (300 : ℚ) ≤ (width : ℚ) := by exact_mod_cast hw1
  have hwq2 : (width : ℚ) < 3360 := by exact_mod_cast hw2
  have hp : 0 < xPixelPerUnit width s := by
    unfold xPixelPerUnit
    exact div_pos (by linarith) (by linarith)
  have hd : 2 * s.m_viewRangeX * xPixelPerUnit width s = (width : ℚ) := by
    unfold xPixelPerUnit
    field_simp
  have h := selectedInterval_ratio_bounds s.m_viewRangeX (xPixelPerUnit width s) hp hr1 hr2
    (by rw [hd]; exact hwq1) (by rw [hd]; exact hwq2)
  exact tickCountAfter_bounds_of_ratio s.m_viewRangeX (xPixelPerUnit width s)
    (selectedInterval_pos _ hp) h.1 h.2

/-! ## Pan -/

/-- C9. On a canvas of positive size a pan by the pixel delta `(a, b)` subtracts
`a * 2 * halfRangeX / width` from the X offset and `b * 2 * halfRangeY / height` from the
Y offset and keeps both half-ranges; the pan by `(-a, -b)` that follows restores the
centre offset exactly, again with both half-ranges unchanged. -/
theorem pan_inverted_by_negative_delta (s : Widget) (a b : ℤ)
    (hw : 0 < s.width) (hh : 0 < s.height) :
    (pan a b s).m_viewOffset.x
        = s.m_viewOffset.x - (a : ℚ) * 2 * s.m_viewRangeX / (s.width : ℚ)
      ∧ (pan a b s).m_viewOffset.y
        = s.m_viewOffset.y - (b : ℚ) * 2 * s.m_viewRangeY / (s.height : ℚ)
      ∧ (pan a b s).m_viewRangeX = s.m_viewRangeX
      ∧ (pan a b s).m_viewRangeY = s.m_viewRangeY
      ∧ (pan (-a) (-b) (pan a b s)).m_viewOffset = s.m_viewOffset
      ∧ (pan (-a) (-b) (pan a b s)).m_viewRangeX = s.m_viewRangeX
      ∧ (pan (-a) (-b) (pan a b s)).m_viewRangeY = s.m_viewRangeY := by
  have _ := hw
  have _ := hh
  have step1 : ∀ (c d : ℤ) (t : Widget),
      (pan c d t).m_viewOffset
        = ⟨t.m_viewOffset.x - (c : ℚ) * 2 * t.m_viewRangeX / (t.width : ℚ),
            t.m_viewOffset.y - (d : ℚ) * 2 * t.m_viewRangeY / (t.height : ℚ)⟩ := by
    intro c d t
    unfold pan
    rw [mouseMoveEvent_left_offset]
    congr 1
    · push_cast; ring
    · push_cast; ring
  have hr : ∀ (c d : ℤ) (t : Widget),
      (pan c d t).m_viewRangeX = t.m_viewRangeX ∧ (pan c d t).m_viewRangeY = t.m_viewRangeY :=
    fun c d t => mouseMoveEvent_viewRange true _ t
  have hg : ∀ (c d : ℤ) (t : Widget),
      (pan c d t).width = t.width ∧ (pan c d t).height = t.height :=
    fun c d t => ⟨(mouseMoveEvent_left_frame _ t).2.1, (mouseMoveEvent_left_frame _ t).2.2⟩
  refine ⟨?_, ?_, (hr a b s).1, (hr a b s).2, ?_, ?_, ?_⟩
  · rw [step1]
  · rw [step1]
  · rw [step1 (-a) (-b) (pan a b s), (hr a b s).1, (hr a b s).2, (hg a b s).1, (hg a b s).2,
      step1 a b s]
    cases hs : s.m_viewOffset
    simp only [QPointF.mk.injEq]
    constructor
    · push_cast; ring
    · push_cast; ring
  · rw [(hr (-a) (-b) (pan a b s)).1, (hr a b s).1]
  · rw [(hr (-a) (-b) (pan a b s)).2, (hr a b s).2]

/-- A pan by `(30, -7)` and back on the initial 1200 x 800 view. -/
theorem pan_inverted_by_negative_delta_witness :
    0 < (initialWidget 1200 800).width ∧ 0 < (initialWidget 1200 800).height
      ∧ (pan (-30) (-(-7)) (pan 30 (-7) (initialWidget 1200 800))).m_viewOffset
          = (initialWidget 1200 800).m_viewOffset :=
  ⟨by norm_num [initialWidget], by norm_num [initialWidget],
    (pan_inverted_by_negative_delta (initialWidget 1200 800) 30 (-7)
      (by norm_num [initialWidget]) (by norm_num [initialWidget])).2.2.2.2.1⟩

/-- C10, as amended. In a state with half-ranges 10 and 8 on a 1200 x 800 canvas, with any
centre offset and either value of the dirty flag, a pan by the pixel delta `(0, 0)` leaves
the centre offset and both half-ranges unchanged; the pan marks the grid dirty and repaints
at once, so after it the grid image is up to date and the dirty flag is false: the flag
keeps its value when it was false before the pan and is cleared when it was true. -/
theorem pan_zero_keeps_view_repaints (s : Widget)
    (hrx : s.m_viewRangeX = 10) (hry : s.m_viewRangeY = 8)
    (hw : s.width = 1200) (hh : s.height = 800) :
    (pan 0 0 s).m_viewOffset = s.m_viewOffset
      ∧ (pan 0 0 s).m_viewRangeX = 10
      ∧ (pan 0 0 s).m_viewRangeY = 8
      ∧ (pan 0 0 s).m_isTextureDirty = false
      ∧ GridImageCurrent (pan 0 0 s)
      ∧ (s.m_isTextureDirty = false → (pan 0 0 s).m_isTextureDirty = s.m_isTextureDirty) := by
  have hp := mouseMoveEvent_repainted_state true
    ⟨s.m_lastMousePos.x + 0, s.m_lastMousePos.y + 0⟩ s (Or.inl rfl)
  refine ⟨?_, ?_, ?_, hp.1, hp.2, ?_⟩
  · unfold pan
    rw [mouseMoveEvent_left_offset]
    cases hs : s.m_viewOffset
    simp [hw, hh]
  · rw [← hrx]; exact (mouseMoveEvent_viewRange true _ s).1
  · rw [← hry]; exact (mouseMoveEvent_viewRange true _ s).2
  · intro hd
    rw [hd]
    exact hp.1

/-- The zero pan on the initial 1200 x 800 view after its first paint: the flag is false
before and after. -/
theorem pan_zero_keeps_view_repaints_witness :
    (paintGL (initialWidget 1200 800)).m_viewRangeX = 10
      ∧ (paintGL (initialWidget 1200 800)).m_viewRangeY = 8
      ∧ (paintGL (initialWidget 1200 800)).width = 1200
      ∧ (paintGL (initialWidget 1200 800)).height = 800
      ∧ (paintGL (initialWidget 1200 800)).m_isTextureDirty = false
      ∧ (pan 0 0 (paintGL (initialWidget 1200 800))).m_viewOffset
          = (paintGL (initialWidget 1200 800)).m_viewOffset
      ∧ (pan 0 0 (paintGL (initialWidget 1200 800))).m_isTextureDirty
          = (paintGL (initialWidget 1200 800)).m_isTextureDirty :=
  ⟨rfl, rfl, rfl, rfl, rfl,
    (pan_zero_keeps_view_repaints (paintGL (initialWidget 1200 800)) rfl rfl rfl rfl).1,
    (pan_zero_keeps_view_repaints (paintGL (initialWidget 1200 800)) rfl rfl rfl rfl).2.2.2.2.2
      rfl⟩

/-- After a paint and switching cursor tracking off on the initial 1200 x 800 view
(half-ranges 10 and 8) the dirty flag is true; a pan by `(0, 0)` repaints and returns with
the flag false. -/
theorem pan_zero_clears_dirty_flag :
    (onMousePosition false (paintGL (initialWidget 1200 800))).m_viewRangeX = 10
      ∧ (onMousePosition false (paintGL (initialWidget 1200 800))).m_viewRangeY = 8
      ∧ (onMousePosition false (paintGL (initialWidget 1200 800))).width = 1200
      ∧ (onMousePosition false (paintGL (initialWidget 1200 800))).height = 800
      ∧ (onMousePosition false (paintGL (initialWidget 1200 800))).m_isTextureDirty = true
      ∧ (pan 0 0 (onMousePosition false (paintGL (initialWidget 1200 800)))).m_isTextureDirty
          = false
      ∧ (pan 0 0 (onMousePosition false (paintGL (initialWidget 1200 800)))).m_isTextureDirty
          ≠ (onMousePosition false (paintGL (initialWidget 1200 800))).m_isTextureDirty := by
  have h := (mouseMoveEvent_repainted_state true
    ⟨(onMousePosition false (paintGL (initialWidget 1200 800))).m_lastMousePos.x + 0,
      (onMousePosition false (paintGL (initialWidget 1200 800))).m_lastMousePos.y + 0⟩
    (onMousePosition false (paintGL (initialWidget 1200 800))) (Or.inl rfl)).1
  have hd : (onMousePosition false (paintGL (initialWidget 1200 800))).m_isTextureDirty
      = true := rfl
  refine ⟨rfl, rfl, rfl, rfl, hd, h, ?_⟩
  unfold pan
  rw [h, hd]
  decide

/-! ## Positive half-ranges -/

theorem step_halfRangesPositive (s : Widget) (ev : Event) (hs : HalfRangesPositive s) :
    HalfRangesPositive (step s ev) := by
  obtain ⟨hx, hy⟩ := hs
  cases ev with
  | resize w h => exact ⟨hx, hy⟩
  | paint =>
    unfold step HalfRangesPositive
    rw [(paintGL_view s).2.2.1, (paintGL_view s).2.2.2.1]
    exact ⟨hx, hy⟩
  | resetView =>
    unfold step HalfRangesPositive onResetView
    rw [updateGL_viewRangeX, updateGL_viewRangeY]
    constructor
    · show (0 : ℚ) < BASE_X_RANGE
      norm_num [BASE_X_RANGE]
    · show (0 : ℚ) < BASE_Y_RANGE
      norm_num [BASE_Y_RANGE]
  | mousePosition isShown =>
    cases isShown <;> exact ⟨hx, hy⟩
  | mousePress e => exact ⟨hx, hy⟩
  | mouseMove leftButton e =>
    unfold step HalfRangesPositive
    rw [(mouseMoveEvent_viewRange leftButton e s).1, (mouseMoveEvent_viewRange leftButton e s).2]
    exact ⟨hx, hy⟩
  | wheel isCtrlPressed angleDeltaY mousePos =>
    have hf := wheelScaleFactor_pos angleDeltaY
    unfold step HalfRangesPositive wheelEvent
    rw [updateGL_viewRangeX, updateGL_viewRangeY]
    cases isCtrlPressed
    · exact ⟨mul_pos hx hf, hy⟩
    · exact ⟨hx, mul_pos hy hf⟩

theorem run_halfRangesPositive (events : List Event) :
    ∀ s : Widget, HalfRangesPositive s → HalfRangesPositive (run s events) := by
  induction events with
  | nil => intro s hs; exact hs
  | cons ev rest ih =>
    intro s hs
    exact ih (step s ev) (step_halfRangesPositive s ev hs)

/-- C7. From the initial state (half-ranges 10 and 8, offset `(0, 0)`) on a canvas of positive
size, after every finite sequence of events (pans, wheel zooms on either axis and view
resets among them) both half-ranges are positive, and the factor applied at a wheel step
lies in the clamp range `[1/10, 50]`. -/
theorem halfRanges_stay_positive (width height : ℤ) (hw : 0 < width) (hh : 0 < height)
    (events : List Event) :
    0 < (run (initialWidget width height) events).m_viewRangeX
      ∧ 0 < (run (initialWidget width height) events).m_viewRangeY
      ∧ ∀ angleDeltaY : ℤ,
          1/10 ≤ wheelScaleFactor angleDeltaY ∧ wheelScaleFactor angleDeltaY ≤ 50 := by
  have _ := hw
  have _ := hh
  have h0 : HalfRangesPositive (initialWidget width height) := by
    constructor
    · show (0 : ℚ) < BASE_X_RANGE
      norm_num [BASE_X_RANGE]
    · show (0 : ℚ) < BASE_Y_RANGE
      norm_num [BASE_Y_RANGE]
  have h := run_halfRangesPositive events (initialWidget width height) h0
  refine ⟨h.1, h.2, ?_⟩
  intro d
  rcases wheelScaleFactor_cases d with hd | hd <;> rw [hd] <;> norm_num

/-- A zoom, a pan, a zoom on the other axis, a reset and a zoom out on a 1200 x 800 canvas. -/
theorem halfRanges_stay_positive_witness :
    (0 : ℤ) < 1200 ∧ (0 : ℤ) < 800
      ∧ 0 < (run (initialWidget 1200 800)
          [.wheel false 120 ⟨10, 20⟩, .mouseMove true ⟨30, 5⟩, .wheel true (-120) ⟨7, 7⟩,
            .resetView, .wheel false (-120) ⟨0, 0⟩]).m_viewRangeX :=
  ⟨by decide, by decide,
    (halfRanges_stay_positive 1200 800 (by decide) (by decide) _).1⟩

/-! ## The dirty flag -/

/-- C8, as amended. In every widget state the dirty flag is true after a resize and after
switching cursor tracking off; switching cursor tracking on leaves the flag as it was. A
pan (left-button mouse move), a wheel zoom, a view reset and a mouse move while the cursor
is visible mark the grid dirty and repaint at once (`updateGL`), so that on return the
grid image has been regenerated from the new state and the flag is false again. Whenever
an event turns a set flag into a clear one, the grid image has been regenerated; the paint
step clears a set flag after it has regenerated the image, and does nothing when the flag
is already clear. -/
theorem dirty_flag_marked_then_repainted (s : Widget) :
    (∀ w h : ℤ, (step s (.resize w h)).m_isTextureDirty = true)
      ∧ (step s (.mousePosition false)).m_isTextureDirty = true
      ∧ (step s (.mousePosition true)).m_isTextureDirty = s.m_isTextureDirty
      ∧ (∀ e : QPoint, (∃ t : Widget, step s (.mouseMove true e) = updateGL (markTextureDirty t))
          ∧ (step s (.mouseMove true e)).m_isTextureDirty = false
          ∧ GridImageCurrent (step s (.mouseMove true e)))
      ∧ (∀ (c : Bool) (d : ℤ) (p : QPoint),
          (∃ t : Widget, step s (.wheel c d p) = updateGL (markTextureDirty t))
          ∧ (step s (.wheel c d p)).m_isTextureDirty = false
          ∧ GridImageCurrent (step s (.wheel c d p)))
      ∧ ((∃ t : Widget, step s .resetView = updateGL (markTextureDirty t))
          ∧ (step s .resetView).m_isTextureDirty = false
          ∧ GridImageCurrent (step s .resetView))
      ∧ (s.m_isMousePosVisible = true →
          ∀ (l : Bool) (e : QPoint),
            (∃ t : Widget, step s (.mouseMove l e) = updateGL (markTextureDirty t))
            ∧ (step s (.mouseMove l e)).m_isTextureDirty = false
            ∧ GridImageCurrent (step s (.mouseMove l e)))
      ∧ (∀ ev : Event, s.m_isTextureDirty = true → (step s ev).m_isTextureDirty = false →
          GridImageCurrent (step s ev))
      ∧ (s.m_isTextureDirty = true →
          (step s .paint).m_isTextureDirty = false
            ∧ (step s .paint).m_gridTextureImage
                = some (generateGridTextureImage s.width s.height s))
      ∧ (s.m_isTextureDirty = false → step s .paint = s) := by
  have hwheel : ∀ (c : Bool) (d : ℤ) (p : QPoint),
      (wheelEvent c d p s).m_isTextureDirty = false ∧ GridImageCurrent (wheelEvent c d p s) :=
    fun c d p => ⟨updateGL_dirty _, updateGL_markTextureDirty_current _⟩
  have hreset : (onResetView s).m_isTextureDirty = false ∧ GridImageCurrent (onResetView s) :=
    ⟨updateGL_dirty _, updateGL_markTextureDirty_current _⟩
  refine ⟨?_, ?_, ?_, ?_, ?_, ⟨⟨_, rfl⟩, hreset⟩, ?_, ?_, ?_, ?_⟩
  · intro w h; rfl
  · rfl
  · rfl
  · intro e
    exact ⟨mouseMoveEvent_repaints true e s (Or.inl rfl),
      mouseMoveEvent_repainted_state true e s (Or.inl rfl)⟩
  · intro c d p
    exact ⟨⟨_, rfl⟩, hwheel c d p⟩
  · intro hv l e
    exact ⟨mouseMoveEvent_repaints l e s (Or.inr hv),
      mouseMoveEvent_repainted_state l e s (Or.inr hv)⟩
  · intro ev hd hc
    cases ev with
    | resize w h => exact absurd hc (by simp [step, resizeGL, markTextureDirty])
    | paint => exact paintGL_current s hd
    | resetView => exact hreset.2
    | mousePosition isShown =>
      cases isShown
      · exact absurd hc (by simp [step, onMousePosition, markTextureDirty])
      · exact absurd hc (by simp [step, onMousePosition, hd])
    | mousePress e => exact absurd hc (by simp [step, mousePressEvent, hd])
    | mouseMove l e =>
      by_cases h : l = true ∨ s.m_isMousePosVisible = true
      · exact (mouseMoveEvent_repainted_state l e s h).2
      · have hl : l = false := by
          cases l
          · rfl
          · exact absurd (Or.inl rfl) h
        have hv : s.m_isMousePosVisible = false := by
          cases hvv : s.m_isMousePosVisible
          · rfl
          · exact absurd (Or.inr hvv) h
        exact absurd hc (by simp [step, mouseMoveEvent, hl, hv, hd])
    | wheel c d p => exact (hwheel c d p).2
  · intro hd
    simp [step, paintGL, hd]
  · intro hd
    simp [step, paintGL, hd]

/-- A mouse move without a button, after a paint and with cursor tracking switched on: the
flag is clear before the move and clear again after it, and the image has been regenerated
from the state with the new cursor position. -/
theorem dirty_flag_marked_then_repainted_witness :
    (onMousePosition true (paintGL (initialWidget 1200 800))).m_isTextureDirty = false
      ∧ (onMousePosition true (paintGL (initialWidget 1200 800))).m_isMousePosVisible = true
      ∧ (step (onMousePosition true (paintGL (initialWidget 1200 800)))
          (.mouseMove false ⟨3, 4⟩)).m_isTextureDirty = false
      ∧ GridImageCurrent (step (onMousePosition true (paintGL (initialWidget 1200 800)))
          (.mouseMove false ⟨3, 4⟩)) :=
  ⟨rfl, rfl,
    ((dirty_flag_marked_then_repainted
      (onMousePosition true (paintGL (initialWidget 1200 800)))).2.2.2.2.2.2.1
      rfl false ⟨3, 4⟩).2⟩

/-- After the first paint of the initial view the dirty flag is false; switching cursor
tracking on leaves it false, and a wheel zoom returns with it false as well. -/
theorem tracking_on_leaves_flag_clear :
    (paintGL (initialWidget 1200 800)).m_isTextureDirty = false
      ∧ ¬ ((step (paintGL (initialWidget 1200 800)) (.mousePosition true)).m_isTextureDirty
            = true)
      ∧ ¬ ((step (paintGL (initialWidget 1200 800))
            (.wheel false 120 ⟨600, 400⟩)).m_isTextureDirty = true) := by
  refine ⟨rfl, ?_, ?_⟩
  · simp [step, onMousePosition, paintGL, initialWidget, markTextureDirty]
  · simp [step, wheelEvent]

end Oscilloscope
